import Mathlib

/-!
Shallow embedding of the resolution, retry, capability-negotiation and
task-completion layer of the go-vcloud-director client library.

External transport calls (`ExecuteRequest` and the OpenAPI transport) are
modelled as oracle functions collected in environment records: each oracle
maps the request's href (and, for the retried edge-gateway read, the attempt
index) to the outcome the server would produce.  Go `(pointer, error)`
return pairs are modelled as `Option entity × Option VcdError`, so that a
function can - like the Go source - return a non-nil entity together with a
non-nil error.  Functions whose behaviour the claims count (strategy
invocations, transport attempts, sleeps) additionally return that
instrumentation.
-/

namespace GoVcd

/-- Error values of the library: `notFound` models `ErrorEntityNotFound`,
`unsupportedEndpoint` the capability-negotiation failure, `other` a
`fmt.Errorf` message and `wrap` a `fmt.Errorf("...: %s", err)` wrapping. -/
inductive VcdError where
  | notFound
  | unsupportedEndpoint (endpoint requiredVersion serverVersion : String)
  | other (msg : String)
  | wrap (msg : String) (inner : VcdError)
deriving DecidableEq

/-- A Go `(entityPointer, error)` return pair. -/
abbrev GoRes (α : Type) := Option α × Option VcdError

/-- An entity document retrieved from the transport, identified by the href
it was fetched from (the document body itself is external data). -/
structure Ent where
  href : String
deriving DecidableEq

/-- A `types.Link` element of an Org document. -/
structure Link where
  rel : String
  typ : String
  name : String
  id : String
  href : String
deriving DecidableEq

/-- A reference entry (resource entity, network reference or edge-gateway
query record): the fields of `types.ResourceReference` the code reads. -/
structure ResourceRef where
  name : String
  id : String
  href : String
  typ : String
deriving DecidableEq

/-- The Org document data the embedded operations read (`org.Org.Link`). -/
structure OrgData where
  links : List Link
deriving DecidableEq

/-- The VDC document data the embedded operations read. -/
structure VdcData where
  name : String
  id : String
  href : String
  links : List Link
  resourceEntities : List (List ResourceRef)
  availableNetworks : List (List ResourceRef)
deriving DecidableEq

/-- Transport oracles: the outcome of each external `ExecuteRequest`-style
call.  `fetch`/`post` give `none` on success; `fetchEdge` is indexed by the
attempt number because the edge-gateway read is retried. -/
structure Env where
  refreshOrg : Except VcdError OrgData
  refreshVdc : Except VcdError VdcData
  fetch : String → Option VcdError
  post : String → Option VcdError
  fetchEdgeRecords : String → Except VcdError (List ResourceRef)
  fetchEdge : String → Nat → Option VcdError

def mimeCatalog : String := "application/vnd.vmware.vcloud.catalog+xml"

def mimeVDC : String := "application/vnd.vmware.vcloud.vdc+xml"

def mimeVApp : String := "application/vnd.vmware.vcloud.vApp+xml"

def mimeQueryRecords : String := "application/vnd.vmware.vcloud.query.records+xml"

def mimeAdminCatalog : String := "application/vnd.vmware.admin.catalog+xml"

/-- Hexadecimal digit test used by the UUID shape check. -/
def isHexDigitChar (c : Char) : Bool :=
  c.isDigit || ('a' ≤ c && c ≤ 'f') || ('A' ≤ c && c ≤ 'F')

/-- UUID shape: 36 characters, hyphens at positions 8, 13, 18 and 23,
hexadecimal digits elsewhere. -/
def isUuidShape (s : String) : Bool :=
  let cs := s.toList
  cs.length == 36 &&
    cs.enum.all fun ic =>
      if ic.1 == 8 || ic.1 == 13 || ic.1 == 18 || ic.1 == 23 then ic.2 == '-'
      else isHexDigitChar ic.2

/-- True when the string starts with the four characters of a URN head. -/
def hasUrnHead (s : String) : Bool :=
  match s.toList with
  | 'u' :: 'r' :: 'n' :: ':' :: _ => true
  | _ => false

/-- Modelled from the spec: the shared identifier-shape predicate
(`ResolveByNameOrId` decision rule, §4.2) - the function deciding it is not
among the provided sources.  An identifier "lexically matches the
identifier-shape the system uses for opaque IDs (a recognized URN/UUID-like
pattern)" when it is a URN or a bare UUID. -/
def looksLikeId (s : String) : Bool :=
  hasUrnHead s || isUuidShape s

/-- Characters after the last occurrence of `sep`; the whole list when
`sep` does not occur. -/
def afterLast (sep : Char) : List Char → List Char
  | [] => []
  | c :: rest =>
      if rest.contains sep then afterLast sep rest
      else if c == sep then rest
      else c :: rest

/-- The bare-UUID part of an identifier: the segment after the last colon
(a URN keeps only its trailing UUID; a bare UUID is unchanged). -/
def bareUuid (s : String) : String :=
  String.mk (afterLast ':' s.toList)

/-- Modelled from the spec: the `equalIds` comparator (§9) is not among the
provided sources.  It takes the candidate identifier, the fallback ID field
and the href and compares bare-UUID parts, falling back to an href-suffix
match when the reference carries no ID. -/
def equalIds (wanted fallbackId href : String) : Bool :=
  if fallbackId != "" then bareUuid wanted == bareUuid fallbackId
  else List.isSuffixOf (bareUuid wanted).toList href.toList

/-- Which resolution strategy a name-or-ID entry point invoked. -/
inductive Strategy where
  | byName
  | byId
deriving DecidableEq

/-- Modelled from the spec: `getEntityByNameOrId` is declared in the
repository outside the provided sources.  Following §4.2, it dispatches on
the shared identifier-shape predicate and invokes exactly one strategy with
the refresh flag it was given.  The second component instruments the call:
it lists the invoked strategies together with the refresh flag each one
received (the spec's call-count assertions). -/
def getEntityByNameOrId {α : Type} (getByName getById : String → Bool → GoRes α)
    (identifier : String) (refresh : Bool) : GoRes α × List (Strategy × Bool) :=
  if looksLikeId identifier then (getById identifier refresh, [(Strategy.byId, refresh)])
  else (getByName identifier refresh, [(Strategy.byName, refresh)])

/-- Org.Refresh: re-fetches the org document.  (The source's guard against a
nil wrapper object concerns wrapper state outside this data model.) -/
def Org.Refresh (env : Env) (_org : OrgData) : Except VcdError OrgData :=
  env.refreshOrg

/-- Org.GetCatalogByHref: fetches a catalog by href; on failure returns a
nil pointer and the error. -/
def Org.GetCatalogByHref (env : Env) (catalogHref : String) : GoRes Ent :=
  match env.fetch catalogHref with
  | some e => (none, some e)
  | none => (some ⟨catalogHref⟩, none)

/-- Org.GetCatalogByName: optionally refreshes the org, then follows the
first link whose name and catalog MIME type match; zero matches give
`ErrorEntityNotFound`. -/
def Org.GetCatalogByName (env : Env) (org : OrgData) (catalogName : String)
    (refresh : Bool) : GoRes Ent :=
  match (if refresh then Org.Refresh env org else Except.ok org) with
  | .error e => (none, some e)
  | .ok o =>
    match o.links.find? (fun l => l.name == catalogName && l.typ == mimeCatalog) with
    | some l => Org.GetCatalogByHref env l.href
    | none => (none, some VcdError.notFound)

/-- Org.GetCatalogById: like `GetCatalogByName` but matching links with
`equalIds`. -/
def Org.GetCatalogById (env : Env) (org : OrgData) (catalogId : String)
    (refresh : Bool) : GoRes Ent :=
  match (if refresh then Org.Refresh env org else Except.ok org) with
  | .error e => (none, some e)
  | .ok o =>
    match o.links.find? (fun l => equalIds catalogId l.id l.href) with
    | some l => Org.GetCatalogByHref env l.href
    | none => (none, some VcdError.notFound)

/-- Org.GetCatalogByNameOrId: hands both strategies to
`getEntityByNameOrId`, forwarding the caller's refresh flag.  (The source's
`entity == nil` test and type assertion are observationally the identity on
the strategy's result pair.) -/
def Org.GetCatalogByNameOrId (env : Env) (org : OrgData) (identifier : String)
    (refresh : Bool) : GoRes Ent × List (Strategy × Bool) :=
  getEntityByNameOrId
    (fun name r => Org.GetCatalogByName env org name r)
    (fun i r => Org.GetCatalogById env org i r) identifier refresh

/-- Org.GetVDCByHref: fetches a VDC by href; nil pointer on failure. -/
def Org.GetVDCByHref (env : Env) (vdcHref : String) : GoRes Ent :=
  match env.fetch vdcHref with
  | some e => (none, some e)
  | none => (some ⟨vdcHref⟩, none)

/-- Org.GetVDCByName: first link matching name and VDC MIME type; zero
matches give `ErrorEntityNotFound`. -/
def Org.GetVDCByName (env : Env) (org : OrgData) (vdcName : String)
    (refresh : Bool) : GoRes Ent :=
  match (if refresh then Org.Refresh env org else Except.ok org) with
  | .error e => (none, some e)
  | .ok o =>
    match o.links.find? (fun l => l.name == vdcName && l.typ == mimeVDC) with
    | some l => Org.GetVDCByHref env l.href
    | none => (none, some VcdError.notFound)

/-- Org.GetVDCById: like `GetVDCByName` but matching with `equalIds`. -/
def Org.GetVDCById (env : Env) (org : OrgData) (vdcId : String)
    (refresh : Bool) : GoRes Ent :=
  match (if refresh then Org.Refresh env org else Except.ok org) with
  | .error e => (none, some e)
  | .ok o =>
    match o.links.find? (fun l => equalIds vdcId l.id l.href) with
    | some l => Org.GetVDCByHref env l.href
    | none => (none, some VcdError.notFound)

/-- Org.GetVDCByNameOrId: dispatches through `getEntityByNameOrId`,
forwarding the caller's refresh flag. -/
def Org.GetVDCByNameOrId (env : Env) (org : OrgData) (identifier : String)
    (refresh : Bool) : GoRes Ent × List (Strategy × Bool) :=
  getEntityByNameOrId
    (fun name r => Org.GetVDCByName env org name r)
    (fun i r => Org.GetVDCById env org i r) identifier refresh

/-- A value-type `Catalog` wrapper: `inner` is its catalog-document pointer,
so `⟨none⟩` models the zero value `Catalog{}` and `⟨some h⟩` a wrapper whose
document was (possibly only partially) fetched from `h`. -/
structure CatalogVal where
  inner : Option String
deriving DecidableEq

/-- Org.FindCatalog (deprecated): follows the first link with rel "down",
catalog MIME type and the wanted name, returning the fetched wrapper
together with the fetch error; when no link matches it returns the
zero-value catalog and a nil error. -/
def Org.FindCatalog (env : Env) (org : OrgData) (catalogName : String) :
    CatalogVal × Option VcdError :=
  match org.links.find?
      (fun l => l.rel == "down" && l.typ == mimeCatalog && l.name == catalogName) with
  | some l => (⟨some l.href⟩, env.fetch l.href)
  | none => (⟨none⟩, none)

/-- A value-type `AdminCatalog` wrapper; `⟨none⟩` models `AdminCatalog{}`. -/
structure AdminCatalogVal where
  inner : Option String
deriving DecidableEq

/-- CreateCatalogWithStorageProfile (package level): takes the last link
with rel "add" and admin-catalog MIME type (the source loop overwrites on
every match and does not break), fails when there is none, and otherwise
POSTs, returning the freshly allocated wrapper together with the transport
error. -/
def CreateCatalogWithStorageProfile (env : Env) (links : List Link) :
    Option AdminCatalogVal × Option VcdError :=
  match (links.filter (fun l => l.rel == "add" && l.typ == mimeAdminCatalog)).getLast? with
  | none => (none, some (VcdError.other "creating catalog failed to find url"))
  | some l => (some ⟨some l.href⟩, env.post l.href)

/-- CreateCatalog (package level): calls `CreateCatalogWithStorageProfile`;
when that call fails, the source's error branch returns `AdminCatalog{}, nil`
- a zero-value catalog and a nil error. -/
def CreateCatalog (env : Env) (links : List Link) : AdminCatalogVal × Option VcdError :=
  match CreateCatalogWithStorageProfile env links with
  | (_, some _) => (⟨none⟩, none)
  | (c, none) => (c.getD ⟨none⟩, none)

/-- Vdc.Refresh: guards against an empty href, then re-fetches the VDC
document. -/
def Vdc.Refresh (env : Env) (vdc : VdcData) : Except VcdError VdcData :=
  if vdc.href == "" then Except.error (VcdError.other "cannot refresh, Object is empty")
  else env.refreshVdc

/-- Vdc.GetOrgVdcNetworkByHref: fetches a network by href.  The source
returns `orgNet, err` - the freshly allocated network wrapper is returned
even when the fetch failed, so a non-nil pointer can accompany a non-nil
error. -/
def Vdc.GetOrgVdcNetworkByHref (env : Env) (href : String) : GoRes Ent :=
  (some ⟨href⟩, env.fetch href)

/-- Vdc.GetOrgVdcNetworkByName: optionally refreshes (wrapping a refresh
failure), then follows the first available-network reference with the
wanted name; zero matches give `ErrorEntityNotFound`. -/
def Vdc.GetOrgVdcNetworkByName (env : Env) (vdc : VdcData) (name : String)
    (refresh : Bool) : GoRes Ent :=
  match (if refresh then Vdc.Refresh env vdc else Except.ok vdc) with
  | .error e => (none, some (VcdError.wrap "error refreshing vdc" e))
  | .ok v =>
    match v.availableNetworks.flatten.find? (fun r => r.name == name) with
    | some r => Vdc.GetOrgVdcNetworkByHref env r.href
    | none => (none, some VcdError.notFound)

/-- Vdc.GetOrgVdcNetworkById: like `GetOrgVdcNetworkByName` but matching
references with `equalIds` (some vCD versions return no ID in the network
reference). -/
def Vdc.GetOrgVdcNetworkById (env : Env) (vdc : VdcData) (id : String)
    (refresh : Bool) : GoRes Ent :=
  match (if refresh then Vdc.Refresh env vdc else Except.ok vdc) with
  | .error e => (none, some (VcdError.wrap "error refreshing vdc" e))
  | .ok v =>
    match v.availableNetworks.flatten.find? (fun r => equalIds id r.id r.href) with
    | some r => Vdc.GetOrgVdcNetworkByHref env r.href
    | none => (none, some VcdError.notFound)

/-- Vdc.GetOrgVdcNetworkByNameOrId: dispatches through
`getEntityByNameOrId`; the source passes the literal `false` as the refresh
flag instead of the caller's. -/
def Vdc.GetOrgVdcNetworkByNameOrId (env : Env) (vdc : VdcData) (identifier : String)
    (_refresh : Bool) : GoRes Ent × List (Strategy × Bool) :=
  getEntityByNameOrId
    (fun name r => Vdc.GetOrgVdcNetworkByName env vdc name r)
    (fun i r => Vdc.GetOrgVdcNetworkById env vdc i r) identifier false

/-- Vdc.GetVAppByHref: fetches a vApp by href; nil pointer on failure. -/
def Vdc.GetVAppByHref (env : Env) (vappHref : String) : GoRes Ent :=
  match env.fetch vappHref with
  | some e => (none, some e)
  | none => (some ⟨vappHref⟩, none)

/-- Vdc.GetVAppByName: first resource entity with the wanted name and vApp
MIME type; zero matches give `ErrorEntityNotFound`. -/
def Vdc.GetVAppByName (env : Env) (vdc : VdcData) (vappName : String)
    (refresh : Bool) : GoRes Ent :=
  match (if refresh then Vdc.Refresh env vdc else Except.ok vdc) with
  | .error e => (none, some (VcdError.wrap "error refreshing VDC" e))
  | .ok v =>
    match v.resourceEntities.flatten.find?
        (fun r => r.name == vappName && r.typ == mimeVApp) with
    | some r => Vdc.GetVAppByHref env r.href
    | none => (none, some VcdError.notFound)

/-- Vdc.GetVAppById: like `GetVAppByName` but matching with `equalIds`. -/
def Vdc.GetVAppById (env : Env) (vdc : VdcData) (id : String)
    (refresh : Bool) : GoRes Ent :=
  match (if refresh then Vdc.Refresh env vdc else Except.ok vdc) with
  | .error e => (none, some (VcdError.wrap "error refreshing VDC" e))
  | .ok v =>
    match v.resourceEntities.flatten.find? (fun r => equalIds id r.id r.href) with
    | some r => Vdc.GetVAppByHref env r.href
    | none => (none, some VcdError.notFound)

/-- Vdc.GetVAppByNameOrId: dispatches through `getEntityByNameOrId`; the
source passes the literal `false` as the refresh flag instead of the
caller's. -/
def Vdc.GetVAppByNameOrId (env : Env) (vdc : VdcData) (identifier : String)
    (_refresh : Bool) : GoRes Ent × List (Strategy × Bool) :=
  getEntityByNameOrId
    (fun name r => Vdc.GetVAppByName env vdc name r)
    (fun i r => Vdc.GetVAppById env vdc i r) identifier false

/-- One iteration step of the edge-gateway retry loop
`for i := 1; i < 4 && err != nil; i++ { sleep 200ms; retry }`: `rem` is the
number of loop iterations still allowed (`4 - i`).  Returns the final error
state, the number of attempts made inside the loop, and the sleeps (in
milliseconds) performed before those attempts. -/
def edgeRetryGo (attempt : Nat → Option VcdError) :
    Nat → Nat → VcdError → Option VcdError × Nat × List Nat
  | 0, _, err => (some err, 0, [])
  | rem + 1, i, _err =>
    match attempt i with
    | none => (none, 1, [200])
    | some e =>
      let r := edgeRetryGo attempt rem (i + 1) e
      (r.1, r.2.1 + 1, 200 :: r.2.2)

/-- Vdc.GetEdgeGatewayByHref: fetches an edge gateway, retrying on any
error up to 4 total attempts with a fixed 200ms sleep between attempts (the
vCD 9.7 flaky-read workaround).  Besides the Go result pair it returns the
number of transport attempts made and the list of sleeps performed. -/
def Vdc.GetEdgeGatewayByHref (env : Env) (href : String) :
    GoRes Ent × Nat × List Nat :=
  if href == "" then ((none, some (VcdError.other "empty edge gateway HREF")), 0, [])
  else
    match env.fetchEdge href 0 with
    | none => ((some ⟨href⟩, none), 1, [])
    | some e =>
      match edgeRetryGo (env.fetchEdge href) 3 1 e with
      | (none, n, sleeps) => ((some ⟨href⟩, none), n + 1, sleeps)
      | (some e2, n, sleeps) => ((none, some e2), n + 1, sleeps)

/-- Vdc.GetEdgeGatewayRecordsType: optionally refreshes, then queries the
edge-gateway records through the link with rel "edgeGateways" and
query-records MIME type. -/
def Vdc.GetEdgeGatewayRecordsType (env : Env) (vdc : VdcData) (refresh : Bool) :
    GoRes (List ResourceRef) :=
  match (if refresh then Vdc.Refresh env vdc else Except.ok vdc) with
  | .error e => (none, some (VcdError.wrap "error refreshing vdc" e))
  | .ok v =>
    match v.links.find? (fun l => l.rel == "edgeGateways" && l.typ == mimeQueryRecords) with
    | some l =>
      match env.fetchEdgeRecords l.href with
      | .error e => (none, some e)
      | .ok records => (some records, none)
    | none => (none, some (VcdError.other ("no edge gateway query link found in VDC " ++ v.name)))

/-- Vdc.GetEdgeGatewayByName: searches the edge-gateway records for the
wanted name and retrieves the match by href; zero matches give
`ErrorEntityNotFound`. -/
def Vdc.GetEdgeGatewayByName (env : Env) (vdc : VdcData) (name : String)
    (refresh : Bool) : GoRes Ent :=
  match Vdc.GetEdgeGatewayRecordsType env vdc refresh with
  | (_, some e) => (none, some (VcdError.wrap "error retrieving edge gateways list" e))
  | (some records, none) =>
    match records.find? (fun r => r.name == name) with
    | some r => (Vdc.GetEdgeGatewayByHref env r.href).1
    | none => (none, some VcdError.notFound)
  | (none, none) => (none, some VcdError.notFound)

/-- Vdc.GetEdgeGatewayById: like `GetEdgeGatewayByName` but matching records
with `equalIds` against the record href (records carry no ID field). -/
def Vdc.GetEdgeGatewayById (env : Env) (vdc : VdcData) (id : String)
    (refresh : Bool) : GoRes Ent :=
  match Vdc.GetEdgeGatewayRecordsType env vdc refresh with
  | (_, some e) => (none, some (VcdError.wrap "error retrieving edge gateways list" e))
  | (some records, none) =>
    match records.find? (fun r => equalIds id "" r.href) with
    | some r => (Vdc.GetEdgeGatewayByHref env r.href).1
    | none => (none, some VcdError.notFound)
  | (none, none) => (none, some VcdError.notFound)

/-- Vdc.GetEdgeGatewayByNameOrId: dispatches through `getEntityByNameOrId`;
the source passes the literal `false` as the refresh flag instead of the
caller's. -/
def Vdc.GetEdgeGatewayByNameOrId (env : Env) (vdc : VdcData) (identifier : String)
    (_refresh : Bool) : GoRes Ent × List (Strategy × Bool) :=
  getEntityByNameOrId
    (fun name r => Vdc.GetEdgeGatewayByName env vdc name r)
    (fun i r => Vdc.GetEdgeGatewayById env vdc i r) identifier false

/-- A value-type `VAppTemplate` wrapper: `inner` is its template-document
pointer, so `⟨none⟩` models the zero value `VAppTemplate{}`. -/
structure VAppTemplateVal where
  inner : Option String
deriving DecidableEq

/-- CatalogItem.GetVAppTemplate: fetches the item's entity href into a
freshly allocated wrapper and returns `*cat, err` - the wrapper (with its
non-nil inner document pointer) is returned even when the fetch failed. -/
def CatalogItem.GetVAppTemplate (env : Env) (entityHref : String) :
    VAppTemplateVal × Option VcdError :=
  (⟨some entityHref⟩, env.fetch entityHref)

/-- Go string slicing `s[n:]`: defined when `n ≤ len(s)` and a runtime
panic otherwise, modelled as `none`.  (Go measures bytes; for the ASCII
identifiers involved this coincides with the character count.) -/
def goSliceFrom (s : String) (n : Nat) : Option String :=
  if n ≤ s.length then some (s.drop n) else none

/-- CatalogItem.Delete: builds the deletion URL by unconditionally slicing
the item's ID at byte 23 (`catalogItem.CatalogItem.ID[23:]`) and issues the
DELETE.  The outer `none` models the slicing panic when the ID is shorter
than 23 characters. -/
def CatalogItem.Delete (deleteReq : String → Option VcdError)
    (vcdPath itemId : String) : Option (Option VcdError) :=
  (goSliceFrom itemId 23).map fun tail =>
    deleteReq (vcdPath ++ "/catalogItem/" ++ tail)

/-- Decimal value of a digit sequence (non-digits contribute zero). -/
def natOfDigits (cs : List Char) : Nat :=
  cs.foldl (fun acc c => acc * 10 + (if c.isDigit then c.toNat - 48 else 0)) 0

/-- Characters before the first dot. -/
def takeUntilDot : List Char → List Char
  | [] => []
  | c :: rest => if c == '.' then [] else c :: takeUntilDot rest

/-- Characters after the first dot; empty when there is none. -/
def dropThroughDot : List Char → List Char
  | [] => []
  | c :: rest => if c == '.' then rest else dropThroughDot rest

/-- Version string "major.minor" parsed into a pair of naturals. -/
def parseVersion (s : String) : Nat × Nat :=
  let cs := s.toList
  (natOfDigits (takeUntilDot cs), natOfDigits (takeUntilDot (dropThroughDot cs)))

/-- Strict order on version strings, major first then minor. -/
def verLt (a b : String) : Bool :=
  let pa := parseVersion a
  let pb := parseVersion b
  pa.1 < pb.1 || (pa.1 == pb.1 && pa.2 < pb.2)

/-- One call into the versioned OpenAPI transport: which operation was
issued and which API version string was passed to it. -/
inductive ApiOp where
  | getItem
  | getAllItems
  | postItem
  | putItem
  | deleteItem
deriving DecidableEq

/-- Trace entry for a versioned OpenAPI transport call. -/
structure ApiCall where
  op : ApiOp
  version : String
deriving DecidableEq

/-- OpenAPI transport oracles and session data: the endpoint registry
mapping an endpoint to its minimum supported version (modelled from the
spec's open, append-only registry, §4.3), the connected server's version,
and the outcome of each transport call. -/
structure OpenApiEnv where
  minApiVersions : String → Option String
  serverVersion : String
  buildEndpoint : String → Except VcdError String
  getItem : String → String → Option VcdError
  getAllItems : String → String → Option VcdError
  postItem : String → String → Option VcdError
  putItem : String → String → Option VcdError
  deleteItem : String → String → Option VcdError

def openApiPathVersion1_0_0 : String := "1.0.0/"

def openApiEndpointVdcComputePolicies : String := "vdcComputePolicies/"

def openApiEndpointVdcCapabilities : String := "vdcs/%s/capabilities"

/-- Modelled from the spec: `checkOpenApiEndpointCompatibility` is declared
in the repository outside the provided sources.  Following §4.3, it looks
up the endpoint's minimum supported version in the registry, fails with
`UnsupportedEndpoint` when the connected server is older than required, and
otherwise returns the minimum version (not the server's own) as the version
to use for the call. -/
def checkOpenApiEndpointCompatibility (env : OpenApiEnv) (endpoint : String) :
    Except VcdError String :=
  match env.minApiVersions endpoint with
  | none => Except.error (VcdError.other ("unregistered OpenAPI endpoint " ++ endpoint))
  | some minVer =>
    if verLt env.serverVersion minVer then
      Except.error (VcdError.unsupportedEndpoint endpoint minVer env.serverVersion)
    else Except.ok minVer

/-- getVdcComputePolicyById: consults the endpoint-compatibility check
first and fails fast on its error; otherwise issues the GET with the
negotiated minimum version.  The second component traces the versioned
transport calls issued. -/
def getVdcComputePolicyById (env : OpenApiEnv) (id : String) :
    GoRes Ent × List ApiCall :=
  match checkOpenApiEndpointCompatibility env
      (openApiPathVersion1_0_0 ++ openApiEndpointVdcComputePolicies) with
  | .error e => ((none, some e), [])
  | .ok minimumApiVersion =>
    if id == "" then ((none, some (VcdError.other "empty VDC id")), [])
    else
      match env.buildEndpoint
          (openApiPathVersion1_0_0 ++ openApiEndpointVdcComputePolicies ++ id) with
      | .error e => ((none, some e), [])
      | .ok urlRef =>
        match env.getItem minimumApiVersion urlRef with
        | some e => ((none, some e), [⟨ApiOp.getItem, minimumApiVersion⟩])
        | none => ((some ⟨urlRef⟩, none), [⟨ApiOp.getItem, minimumApiVersion⟩])

/-- getAllVdcComputePolicies: compatibility check first, then a GET-all with
the negotiated minimum version. -/
def getAllVdcComputePolicies (env : OpenApiEnv) :
    GoRes Ent × List ApiCall :=
  match checkOpenApiEndpointCompatibility env
      (openApiPathVersion1_0_0 ++ openApiEndpointVdcComputePolicies) with
  | .error e => ((none, some e), [])
  | .ok minimumApiVersion =>
    match env.buildEndpoint
        (openApiPathVersion1_0_0 ++ openApiEndpointVdcComputePolicies) with
    | .error e => ((none, some e), [])
    | .ok urlRef =>
      match env.getAllItems minimumApiVersion urlRef with
      | some e => ((none, some e), [⟨ApiOp.getAllItems, minimumApiVersion⟩])
      | none => ((some ⟨urlRef⟩, none), [⟨ApiOp.getAllItems, minimumApiVersion⟩])

/-- CreateVdcComputePolicy: compatibility check first, then a POST with the
negotiated minimum version (a POST failure is wrapped). -/
def createVdcComputePolicy (env : OpenApiEnv) :
    GoRes Ent × List ApiCall :=
  match checkOpenApiEndpointCompatibility env
      (openApiPathVersion1_0_0 ++ openApiEndpointVdcComputePolicies) with
  | .error e => ((none, some e), [])
  | .ok minimumApiVersion =>
    match env.buildEndpoint
        (openApiPathVersion1_0_0 ++ openApiEndpointVdcComputePolicies) with
    | .error e => ((none, some e), [])
    | .ok urlRef =>
      match env.postItem minimumApiVersion urlRef with
      | some e =>
        ((none, some (VcdError.wrap "error creating VDC compute policy" e)),
          [⟨ApiOp.postItem, minimumApiVersion⟩])
      | none => ((some ⟨urlRef⟩, none), [⟨ApiOp.postItem, minimumApiVersion⟩])

/-- VdcComputePolicy.Update: compatibility check first, then a PUT with the
negotiated minimum version; an empty policy ID fails before any call. -/
def updateVdcComputePolicy (env : OpenApiEnv) (id : String) :
    GoRes Ent × List ApiCall :=
  match checkOpenApiEndpointCompatibility env
      (openApiPathVersion1_0_0 ++ openApiEndpointVdcComputePolicies) with
  | .error e => ((none, some e), [])
  | .ok minimumApiVersion =>
    if id == "" then
      ((none, some (VcdError.other "cannot update VDC compute policy without ID")), [])
    else
      match env.buildEndpoint
          (openApiPathVersion1_0_0 ++ openApiEndpointVdcComputePolicies ++ id) with
      | .error e => ((none, some e), [])
      | .ok urlRef =>
        match env.putItem minimumApiVersion urlRef with
        | some e =>
          ((none, some (VcdError.wrap "error updating VDC compute policy" e)),
            [⟨ApiOp.putItem, minimumApiVersion⟩])
        | none => ((some ⟨urlRef⟩, none), [⟨ApiOp.putItem, minimumApiVersion⟩])

/-- VdcComputePolicy.Delete: compatibility check first, then a DELETE with
the negotiated minimum version; an empty policy ID fails before any call. -/
def deleteVdcComputePolicy (env : OpenApiEnv) (id : String) :
    Option VcdError × List ApiCall :=
  match checkOpenApiEndpointCompatibility env
      (openApiPathVersion1_0_0 ++ openApiEndpointVdcComputePolicies) with
  | .error e => (some e, [])
  | .ok minimumApiVersion =>
    if id == "" then
      (some (VcdError.other "cannot delete VDC compute policy without id"), [])
    else
      match env.buildEndpoint
          (openApiPathVersion1_0_0 ++ openApiEndpointVdcComputePolicies ++ id) with
      | .error e => (some e, [])
      | .ok urlRef =>
        match env.deleteItem minimumApiVersion urlRef with
        | some e =>
          (some (VcdError.wrap "error deleting VDC compute policy" e),
            [⟨ApiOp.deleteItem, minimumApiVersion⟩])
        | none => (none, [⟨ApiOp.deleteItem, minimumApiVersion⟩])

/-- Vdc.GetCapabilities: requires the VDC ID to be set, consults the
endpoint-compatibility check first, and issues the GET-all with the
negotiated minimum version.  (URL escaping of the interpolated ID is a
transport concern left external.) -/
def Vdc.GetCapabilities (env : OpenApiEnv) (vdc : VdcData) :
    GoRes Ent × List ApiCall :=
  if vdc.id == "" then
    ((none, some (VcdError.other "VDC ID must be set to get capabilities")), [])
  else
    match checkOpenApiEndpointCompatibility env
        (openApiPathVersion1_0_0 ++ openApiEndpointVdcCapabilities) with
    | .error e => ((none, some e), [])
    | .ok minimumApiVersion =>
      match env.buildEndpoint
          ((openApiPathVersion1_0_0 ++ openApiEndpointVdcCapabilities).replace "%s" vdc.id) with
      | .error e => ((none, some e), [])
      | .ok urlRef =>
        match env.getAllItems minimumApiVersion urlRef with
        | some e => ((none, some e), [⟨ApiOp.getAllItems, minimumApiVersion⟩])
        | none => ((some ⟨urlRef⟩, none), [⟨ApiOp.getAllItems, minimumApiVersion⟩])

/-- One polled snapshot of a Task: its status string (an open enumeration
with terminal values "success", "error" and "aborted") and the
server-reported error message. -/
structure TaskSnap where
  status : String
  errMsg : String
deriving DecidableEq

/-- Outcome of waiting on a task against a finite modelled poll sequence. -/
inductive WaitOutcome where
  | success
  | taskFailed (message : String)
  | exhausted
deriving DecidableEq

/-- Terminal failure statuses of a task. -/
def isTerminalFailure (s : String) : Bool :=
  s == "error" || s == "aborted"

/-- Any terminal status of a task. -/
def taskTerminal (s : String) : Bool :=
  s == "success" || isTerminalFailure s

/-- Modelled from the spec: `Task.WaitTaskCompletion` (the spec's
`WaitUntilComplete`, §4.1) is declared in the repository outside the
provided sources.  Each poll fetches a fresh snapshot; a "success" status
returns success, an "error" or "aborted" status fails with `TaskFailed`
carrying the server-reported message, and any other status sleeps and
polls again.  The argument is the sequence of snapshots the server would
return; the result carries the outcome and the number of polls issued
(`exhausted` marks the modelled sequence ending before a terminal status -
the real loop would keep polling). -/
def waitTaskCompletion : List TaskSnap → WaitOutcome × Nat
  | [] => (WaitOutcome.exhausted, 0)
  | t :: rest =>
    if t.status == "success" then (WaitOutcome.success, 1)
    else if isTerminalFailure t.status then (WaitOutcome.taskFailed t.errMsg, 1)
    else
      let r := waitTaskCompletion rest
      (r.1, r.2 + 1)

/-- A benign concrete transport environment: every call succeeds and the
refreshed documents are empty. -/
def envW : Env where
  refreshOrg := Except.ok ⟨[]⟩
  refreshVdc := Except.ok ⟨"vdc1", "urn:vcloud:vdc:1", "https://vcd/api/vdc/1", [], [], []⟩
  fetch := fun _ => none
  post := fun _ => none
  fetchEdgeRecords := fun _ => Except.ok []
  fetchEdge := fun _ _ => none

/-- A concrete transport environment in which every call fails. -/
def envErr : Env where
  refreshOrg := Except.error (VcdError.other "remote failure")
  refreshVdc := Except.error (VcdError.other "remote failure")
  fetch := fun _ => some (VcdError.other "remote failure")
  post := fun _ => some (VcdError.other "remote failure")
  fetchEdgeRecords := fun _ => Except.error (VcdError.other "remote failure")
  fetchEdge := fun _ _ => some (VcdError.other "remote failure")

/-- A concrete VDC document holding one org VDC network named "my-network". -/
def vdcW : VdcData where
  name := "vdc1"
  id := "urn:vcloud:vdc:1"
  href := "https://vcd/api/vdc/1"
  links := []
  resourceEntities := []
  availableNetworks := [[⟨"my-network", "", "https://vcd/api/network/1", ""⟩]]

/-- C10 theorem: `CatalogItem.Delete` builds the deletion URL by
unconditionally slicing the item ID at index 23; an ID shorter than 23
characters makes the slice out of bounds (modelled `none`, a panic), while
an ID of at least 23 characters proceeds to the DELETE request on the URL
ending in `ID[23:]`. -/
theorem c10_delete_slices_id_at_23 :
    (∀ (deleteReq : String → Option VcdError) (vcdPath itemId : String),
      itemId.length < 23 → CatalogItem.Delete deleteReq vcdPath itemId = none) ∧
    (∀ (deleteReq : String → Option VcdError) (vcdPath itemId : String),
      23 ≤ itemId.length →
      CatalogItem.Delete deleteReq vcdPath itemId =
        some (deleteReq (vcdPath ++ "/catalogItem/" ++ itemId.drop 23))) := by
  constructor
  · intro deleteReq vcdPath itemId h
    simp [CatalogItem.Delete, goSliceFrom, Nat.not_le.mpr h]
  · intro deleteReq vcdPath itemId h
    simp [CatalogItem.Delete, goSliceFrom, h]

/-- Witness for C10 at concrete inputs: the 17-character ID "urn:vcloud:short" panics,
and a full `urn:vcloud:catalogitem:` prefixed ID proceeds. -/
theorem c10_delete_slices_id_at_23_witness :
    ("urn:vcloud:short".length < 23 ∧
      CatalogItem.Delete (fun _ => none) "/api" "urn:vcloud:short" = none) ∧
    (23 ≤ "urn:vcloud:catalogitem:11111111-2222-3333-4444-555555555555".length ∧
      CatalogItem.Delete (fun _ => none) "/api"
        "urn:vcloud:catalogitem:11111111-2222-3333-4444-555555555555" =
        some ((fun _ => none)
          ("/api/catalogItem/" ++
            "urn:vcloud:catalogitem:11111111-2222-3333-4444-555555555555".drop 23))) :=
  ⟨⟨by decide, c10_delete_slices_id_at_23.1 (fun _ => none) "/api" "urn:vcloud:short"
      (by decide)⟩,
   ⟨by decide, by
      have := c10_delete_slices_id_at_23.2 (fun _ => none) "/api"
        "urn:vcloud:catalogitem:11111111-2222-3333-4444-555555555555" (by decide)
      simpa using this⟩⟩

/-- C7 theorem (code-bug evidence): at the failing input `links = []` the
underlying `CreateCatalogWithStorageProfile` fails with "creating catalog
failed to find url", yet the package-level `CreateCatalog` returns the
zero-value catalog together with a nil error - the source's error branch
reads `return AdminCatalog{}, nil`, swallowing the error. -/
theorem c7_createCatalog_swallows_error :
    (CreateCatalogWithStorageProfile envW []).2 =
      some (VcdError.other "creating catalog failed to find url") ∧
    CreateCatalog envW [] = (AdminCatalogVal.mk none, none) := by
  constructor <;> rfl

/-- C8 counterexample: with zero matching links, the deprecated
`Org.FindCatalog` returns the zero-value catalog together with a nil error
instead of the `NotFound` error the claim requires. -/
theorem c8_findCatalog_zero_matches_counterexample :
    Org.FindCatalog envW ⟨[]⟩ "absent-catalog" = (CatalogVal.mk none, none) ∧
    (Org.FindCatalog envW ⟨[]⟩ "absent-catalog").2 ≠ some VcdError.notFound := by
  constructor
  · rfl
  · decide

/-- C8 amended theorem: `GetCatalogByName` and `GetVDCByName` do return
`ErrorEntityNotFound` on zero matches; the deprecated `FindCatalog` instead
returns the zero-value catalog and a nil error (as its own doc comment
states). -/
theorem c8_by_name_zero_matches :
    (∀ env org name refresh o,
      (if refresh then Org.Refresh env org else Except.ok org) = Except.ok o →
      o.links.find? (fun l => l.name == name && l.typ == mimeCatalog) = none →
      Org.GetCatalogByName env org name refresh = (none, some VcdError.notFound)) ∧
    (∀ env org name refresh o,
      (if refresh then Org.Refresh env org else Except.ok org) = Except.ok o →
      o.links.find? (fun l => l.name == name && l.typ == mimeVDC) = none →
      Org.GetVDCByName env org name refresh = (none, some VcdError.notFound)) ∧
    (∀ env org name,
      org.links.find?
          (fun l => l.rel == "down" && l.typ == mimeCatalog && l.name == name) = none →
      Org.FindCatalog env org name = (CatalogVal.mk none, none)) := by
  refine ⟨?_, ?_, ?_⟩
  · intro env org name refresh o hre hf
    simp [Org.GetCatalogByName, hre, hf]
  · intro env org name refresh o hre hf
    simp [Org.GetVDCByName, hre, hf]
  · intro env org name hf
    simp [Org.FindCatalog, hf]

/-- Witness for C8's amended theorem at a concrete input: a refresh-forced
catalog-by-name lookup over an org with no links yields `NotFound`. -/
theorem c8_by_name_zero_matches_witness :
    Org.GetCatalogByName envW ⟨[]⟩ "my-catalog" true = (none, some VcdError.notFound) :=
  c8_by_name_zero_matches.1 envW ⟨[]⟩ "my-catalog" true ⟨[]⟩ (by rfl) (by rfl)

/-- A Go result pair never carries both a non-nil entity and a non-nil
error. -/
def NeverBoth {α : Type} (r : GoRes α) : Prop :=
  r.1 = none ∨ r.2 = none

theorem neverBoth_catalogByHref (env : Env) (s : String) :
    NeverBoth (Org.GetCatalogByHref env s) := by
  unfold NeverBoth Org.GetCatalogByHref
  cases h : env.fetch s <;> simp

theorem neverBoth_vdcByHref (env : Env) (s : String) :
    NeverBoth (Org.GetVDCByHref env s) := by
  unfold NeverBoth Org.GetVDCByHref
  cases h : env.fetch s <;> simp

theorem neverBoth_vappByHref (env : Env) (s : String) :
    NeverBoth (Vdc.GetVAppByHref env s) := by
  unfold NeverBoth Vdc.GetVAppByHref
  cases h : env.fetch s <;> simp

theorem neverBoth_edgeByHref (env : Env) (s : String) :
    NeverBoth (Vdc.GetEdgeGatewayByHref env s).1 := by
  unfold NeverBoth Vdc.GetEdgeGatewayByHref
  split
  · simp
  · split
    · simp
    · split <;> simp

theorem neverBoth_catalogByName (env : Env) (org : OrgData) (name : String)
    (refresh : Bool) : NeverBoth (Org.GetCatalogByName env org name refresh) := by
  unfold NeverBoth Org.GetCatalogByName
  split
  · simp
  · split
    · exact neverBoth_catalogByHref env _
    · simp

theorem neverBoth_catalogById (env : Env) (org : OrgData) (id : String)
    (refresh : Bool) : NeverBoth (Org.GetCatalogById env org id refresh) := by
  unfold NeverBoth Org.GetCatalogById
  split
  · simp
  · split
    · exact neverBoth_catalogByHref env _
    · simp

theorem neverBoth_vdcByName (env : Env) (org : OrgData) (name : String)
    (refresh : Bool) : NeverBoth (Org.GetVDCByName env org name refresh) := by
  unfold NeverBoth Org.GetVDCByName
  split
  · simp
  · split
    · exact neverBoth_vdcByHref env _
    · simp

theorem neverBoth_vdcById (env : Env) (org : OrgData) (id : String)
    (refresh : Bool) : NeverBoth (Org.GetVDCById env org id refresh) := by
  unfold NeverBoth Org.GetVDCById
  split
  · simp
  · split
    · exact neverBoth_vdcByHref env _
    · simp

theorem neverBoth_vappByName (env : Env) (vdc : VdcData) (name : String)
    (refresh : Bool) : NeverBoth (Vdc.GetVAppByName env vdc name refresh) := by
  unfold NeverBoth Vdc.GetVAppByName
  split
  · simp
  · split
    · exact neverBoth_vappByHref env _
    · simp

theorem neverBoth_vappById (env : Env) (vdc : VdcData) (id : String)
    (refresh : Bool) : NeverBoth (Vdc.GetVAppById env vdc id refresh) := by
  unfold NeverBoth Vdc.GetVAppById
  split
  · simp
  · split
    · exact neverBoth_vappByHref env _
    · simp

theorem neverBoth_edgeByName (env : Env) (vdc : VdcData) (name : String)
    (refresh : Bool) : NeverBoth (Vdc.GetEdgeGatewayByName env vdc name refresh) := by
  unfold NeverBoth Vdc.GetEdgeGatewayByName
  split
  · simp
  · split
    · exact neverBoth_edgeByHref env _
    · simp
  · simp

theorem neverBoth_edgeById (env : Env) (vdc : VdcData) (id : String)
    (refresh : Bool) : NeverBoth (Vdc.GetEdgeGatewayById env vdc id refresh) := by
  unfold NeverBoth Vdc.GetEdgeGatewayById
  split
  · simp
  · split
    · exact neverBoth_edgeByHref env _
    · simp
  · simp

/-- Dispatch preserves the never-both-non-nil discipline of its two
strategies. -/
theorem neverBoth_nameOrId {α : Type} (gn gi : String → Bool → GoRes α)
    (hn : ∀ s r, NeverBoth (gn s r)) (hi : ∀ s r, NeverBoth (gi s r))
    (id : String) (r : Bool) : NeverBoth (getEntityByNameOrId gn gi id r).1 := by
  unfold getEntityByNameOrId
  split
  · exact hi id r
  · exact hn id r

/-- C9 counterexample: `CatalogItem.GetVAppTemplate` on a failing fetch
returns a wrapper with a non-nil inner document pointer (not the zero
value) together with a non-nil error - both halves of the pair are
populated at this concrete input. -/
theorem c9_getVAppTemplate_both_counterexample :
    (CatalogItem.GetVAppTemplate envErr "https://vcd/api/vAppTemplate/1").1 ≠
      VAppTemplateVal.mk none ∧
    (CatalogItem.GetVAppTemplate envErr "https://vcd/api/vAppTemplate/1").2 ≠ none := by
  constructor <;> decide

/-- C9 amended theorem: the catalog, VDC, vApp and edge-gateway retrieval
chains (by href, by name, by id, by name-or-id) never return both a
non-nil entity and a non-nil error; the guarantee does not extend to the
value-returning `GetVAppTemplate`/`FindCatalog` or to the org VDC network
getters, which hand back the allocated wrapper alongside the error. -/
theorem c9_retrievals_never_both :
    ∀ (env : Env) (org : OrgData) (vdc : VdcData) (s : String) (r : Bool),
      NeverBoth (Org.GetCatalogByHref env s) ∧
      NeverBoth (Org.GetCatalogByName env org s r) ∧
      NeverBoth (Org.GetCatalogById env org s r) ∧
      NeverBoth (Org.GetCatalogByNameOrId env org s r).1 ∧
      NeverBoth (Org.GetVDCByHref env s) ∧
      NeverBoth (Org.GetVDCByName env org s r) ∧
      NeverBoth (Org.GetVDCById env org s r) ∧
      NeverBoth (Org.GetVDCByNameOrId env org s r).1 ∧
      NeverBoth (Vdc.GetVAppByHref env s) ∧
      NeverBoth (Vdc.GetVAppByName env vdc s r) ∧
      NeverBoth (Vdc.GetVAppById env vdc s r) ∧
      NeverBoth (Vdc.GetVAppByNameOrId env vdc s r).1 ∧
      NeverBoth (Vdc.GetEdgeGatewayByHref env s).1 ∧
      NeverBoth (Vdc.GetEdgeGatewayByName env vdc s r) ∧
      NeverBoth (Vdc.GetEdgeGatewayById env vdc s r) ∧
      NeverBoth (Vdc.GetEdgeGatewayByNameOrId env vdc s r).1 := by
  intro env org vdc s r
  refine ⟨neverBoth_catalogByHref env s, neverBoth_catalogByName env org s r,
    neverBoth_catalogById env org s r, ?_,
    neverBoth_vdcByHref env s, neverBoth_vdcByName env org s r,
    neverBoth_vdcById env org s r, ?_,
    neverBoth_vappByHref env s, neverBoth_vappByName env vdc s r,
    neverBoth_vappById env vdc s r, ?_,
    neverBoth_edgeByHref env s, neverBoth_edgeByName env vdc s r,
    neverBoth_edgeById env vdc s r, ?_⟩
  · exact neverBoth_nameOrId _ _ (fun a b => neverBoth_catalogByName env org a b)
      (fun a b => neverBoth_catalogById env org a b) s r
  · exact neverBoth_nameOrId _ _ (fun a b => neverBoth_vdcByName env org a b)
      (fun a b => neverBoth_vdcById env org a b) s r
  · exact neverBoth_nameOrId _ _ (fun a b => neverBoth_vappByName env vdc a b)
      (fun a b => neverBoth_vappById env vdc a b) s false
  · exact neverBoth_nameOrId _ _ (fun a b => neverBoth_edgeByName env vdc a b)
      (fun a b => neverBoth_edgeById env vdc a b) s false

/-- C1 theorem: every name-or-ID resolution entry point with a non-empty
identifier invokes exactly the strategy chosen by the ID-shape predicate -
the instrumentation trace is the corresponding singleton, so the other
strategy is never called - and the overall result is exactly the invoked
strategy's result; in particular, when the invoked strategy reports
`NotFound` the entry point returns `NotFound`. -/
theorem c1_name_or_id_dispatch (env : Env) (org : OrgData) (vdc : VdcData)
    (identifier : String) (refresh : Bool) (_hne : identifier ≠ "") :
    (looksLikeId identifier = true →
      Org.GetCatalogByNameOrId env org identifier refresh =
        (Org.GetCatalogById env org identifier refresh, [(Strategy.byId, refresh)]) ∧
      Org.GetVDCByNameOrId env org identifier refresh =
        (Org.GetVDCById env org identifier refresh, [(Strategy.byId, refresh)]) ∧
      Vdc.GetVAppByNameOrId env vdc identifier refresh =
        (Vdc.GetVAppById env vdc identifier false, [(Strategy.byId, false)]) ∧
      Vdc.GetOrgVdcNetworkByNameOrId env vdc identifier refresh =
        (Vdc.GetOrgVdcNetworkById env vdc identifier false, [(Strategy.byId, false)]) ∧
      Vdc.GetEdgeGatewayByNameOrId env vdc identifier refresh =
        (Vdc.GetEdgeGatewayById env vdc identifier false, [(Strategy.byId, false)])) ∧
    (looksLikeId identifier = false →
      Org.GetCatalogByNameOrId env org identifier refresh =
        (Org.GetCatalogByName env org identifier refresh, [(Strategy.byName, refresh)]) ∧
      Org.GetVDCByNameOrId env org identifier refresh =
        (Org.GetVDCByName env org identifier refresh, [(Strategy.byName, refresh)]) ∧
      Vdc.GetVAppByNameOrId env vdc identifier refresh =
        (Vdc.GetVAppByName env vdc identifier false, [(Strategy.byName, false)]) ∧
      Vdc.GetOrgVdcNetworkByNameOrId env vdc identifier refresh =
        (Vdc.GetOrgVdcNetworkByName env vdc identifier false, [(Strategy.byName, false)]) ∧
      Vdc.GetEdgeGatewayByNameOrId env vdc identifier refresh =
        (Vdc.GetEdgeGatewayByName env vdc identifier false, [(Strategy.byName, false)])) ∧
    (∀ (gn gi : String → Bool → GoRes Ent) (r : Bool),
      (looksLikeId identifier = true → gi identifier r = (none, some VcdError.notFound) →
        (getEntityByNameOrId gn gi identifier r).1 = (none, some VcdError.notFound)) ∧
      (looksLikeId identifier = false → gn identifier r = (none, some VcdError.notFound) →
        (getEntityByNameOrId gn gi identifier r).1 = (none, some VcdError.notFound))) := by
  refine ⟨?_, ?_, ?_⟩
  · intro h
    simp [Org.GetCatalogByNameOrId, Org.GetVDCByNameOrId, Vdc.GetVAppByNameOrId,
      Vdc.GetOrgVdcNetworkByNameOrId, Vdc.GetEdgeGatewayByNameOrId,
      getEntityByNameOrId, h]
  · intro h
    simp [Org.GetCatalogByNameOrId, Org.GetVDCByNameOrId, Vdc.GetVAppByNameOrId,
      Vdc.GetOrgVdcNetworkByNameOrId, Vdc.GetEdgeGatewayByNameOrId,
      getEntityByNameOrId, h]
  · intro gn gi r
    constructor
    · intro h hid
      simp [getEntityByNameOrId, h, hid]
    · intro h hname
      simp [getEntityByNameOrId, h, hname]

/-- Witness for C1 at concrete inputs: a URN identifier dispatches the
catalog entry point to the by-id strategy only, and a plain name dispatches
it to the by-name strategy only; in both cases the strategy finds nothing
in the empty org and the entry point returns `NotFound`. -/
theorem c1_name_or_id_dispatch_witness :
    (looksLikeId "urn:vcloud:catalog:11111111-2222-3333-4444-555555555555" = true ∧
      Org.GetCatalogByNameOrId envW ⟨[]⟩
          "urn:vcloud:catalog:11111111-2222-3333-4444-555555555555" false =
        (Org.GetCatalogById envW ⟨[]⟩
          "urn:vcloud:catalog:11111111-2222-3333-4444-555555555555" false,
          [(Strategy.byId, false)])) ∧
    (looksLikeId "my-catalog" = false ∧
      Org.GetCatalogByNameOrId envW ⟨[]⟩ "my-catalog" false =
        (Org.GetCatalogByName envW ⟨[]⟩ "my-catalog" false,
          [(Strategy.byName, false)])) ∧
    (Org.GetCatalogByNameOrId envW ⟨[]⟩ "my-catalog" false).1 =
      (none, some VcdError.notFound) := by
  refine ⟨⟨by decide, ?_⟩, ⟨by decide, ?_⟩, ?_⟩
  · exact ((c1_name_or_id_dispatch envW ⟨[]⟩ vdcW _ false (by decide)).1 (by decide)).1
  · exact ((c1_name_or_id_dispatch envW ⟨[]⟩ vdcW _ false (by decide)).2.1 (by decide)).1
  · exact ((c1_name_or_id_dispatch envW ⟨[]⟩ vdcW _ false (by decide)).2.2
      (fun a b => Org.GetCatalogByName envW ⟨[]⟩ a b)
      (fun a b => Org.GetCatalogById envW ⟨[]⟩ a b) false).2 (by decide) (by rfl)

/-- C6 counterexample: `Vdc.GetOrgVdcNetworkByNameOrId` called with
`refresh = true` invokes its strategy with the literal `false` - the
caller's refresh flag is not forwarded. -/
theorem c6_refresh_not_forwarded_counterexample :
    (Vdc.GetOrgVdcNetworkByNameOrId envW vdcW "my-network" true).2 =
      [(Strategy.byName, false)] ∧
    (Strategy.byName, true) ∉ (Vdc.GetOrgVdcNetworkByNameOrId envW vdcW "my-network" true).2 := by
  constructor <;> decide

/-- C6 amended theorem: the Org entry points (`GetCatalogByNameOrId`,
`GetVDCByNameOrId`) forward the caller's refresh flag to the invoked
strategy unchanged, but the three Vdc entry points always pass `false`,
ignoring the caller's flag. -/
theorem c6_refresh_forwarding (env : Env) (org : OrgData) (vdc : VdcData)
    (identifier : String) (refresh : Bool) :
    (Org.GetCatalogByNameOrId env org identifier refresh).2 =
      [((if looksLikeId identifier then Strategy.byId else Strategy.byName), refresh)] ∧
    (Org.GetVDCByNameOrId env org identifier refresh).2 =
      [((if looksLikeId identifier then Strategy.byId else Strategy.byName), refresh)] ∧
    (Vdc.GetOrgVdcNetworkByNameOrId env vdc identifier refresh).2 =
      [((if looksLikeId identifier then Strategy.byId else Strategy.byName), false)] ∧
    (Vdc.GetVAppByNameOrId env vdc identifier refresh).2 =
      [((if looksLikeId identifier then Strategy.byId else Strategy.byName), false)] ∧
    (Vdc.GetEdgeGatewayByNameOrId env vdc identifier refresh).2 =
      [((if looksLikeId identifier then Strategy.byId else Strategy.byName), false)] := by
  refine ⟨?_, ?_, ?_, ?_, ?_⟩ <;>
    · simp only [Org.GetCatalogByNameOrId, Org.GetVDCByNameOrId,
        Vdc.GetOrgVdcNetworkByNameOrId, Vdc.GetVAppByNameOrId,
        Vdc.GetEdgeGatewayByNameOrId, getEntityByNameOrId]
      split <;> simp_all

/-- C2 theorem: against a poll sequence whose position-`n` snapshot
(0-indexed) is the first terminal one, `waitTaskCompletion` issues exactly
`n + 1` polls and no more; it returns success when that snapshot's status
is "success", and fails with `TaskFailed` carrying the server-reported
message when the status is "error" or "aborted". -/
theorem c2_wait_task_completion (polls : List TaskSnap) (n : Nat) (t : TaskSnap)
    (hget : polls[n]? = some t)
    (hpre : ∀ i, i < n → ∀ s, polls[i]? = some s → taskTerminal s.status = false) :
    (t.status = "success" →
      waitTaskCompletion polls = (WaitOutcome.success, n + 1)) ∧
    (isTerminalFailure t.status = true →
      waitTaskCompletion polls = (WaitOutcome.taskFailed t.errMsg, n + 1)) := by
  induction polls generalizing n with
  | nil => simp at hget
  | cons p rest ih =>
    cases n with
    | zero =>
      rw [List.getElem?_cons_zero, Option.some.injEq] at hget
      subst hget
      constructor
      · intro hs
        simp [waitTaskCompletion, hs]
      · intro hf
        have hns : (p.status == "success") = false := by
          cases hb : p.status == "success"
          · rfl
          · rw [eq_of_beq hb] at hf
            simp [isTerminalFailure] at hf
        simp [waitTaskCompletion, hns, hf]
    | succ m =>
      have hp := hpre 0 (Nat.succ_pos m) p (by simp)
      simp only [taskTerminal, Bool.or_eq_false_iff] at hp
      have ihr := ih m (by simpa using hget)
        (fun i hi s hs => hpre (i + 1) (Nat.succ_lt_succ hi) s (by simpa using hs))
      constructor
      · intro hs
        simp [waitTaskCompletion, hp.1, hp.2, ihr.1 hs]
      · intro hf
        simp [waitTaskCompletion, hp.1, hp.2, ihr.2 hf]

/-- Witness for C2 at concrete poll sequences: two non-terminal polls
followed by "success" yields success in exactly 3 polls, and a "running"
poll followed by "error" yields the task failure with the server message in
exactly 2 polls. -/
theorem c2_wait_task_completion_witness :
    waitTaskCompletion
        [⟨"queued", ""⟩, ⟨"running", ""⟩, ⟨"success", ""⟩] =
      (WaitOutcome.success, 3) ∧
    waitTaskCompletion
        [⟨"running", ""⟩, ⟨"error", "disk quota exceeded"⟩, ⟨"error", "stale"⟩] =
      (WaitOutcome.taskFailed "disk quota exceeded", 2) := by
  constructor
  · exact (c2_wait_task_completion
      [⟨"queued", ""⟩, ⟨"running", ""⟩, ⟨"success", ""⟩] 2 ⟨"success", ""⟩
      (by rfl)
      (by
        intro i hi s hs
        match i, hi with
        | 0, _ => rw [List.getElem?_cons_zero, Option.some.injEq] at hs; subst hs; decide
        | 1, _ =>
          rw [List.getElem?_cons_succ, List.getElem?_cons_zero, Option.some.injEq] at hs
          subst hs; decide)).1 rfl
  · exact (c2_wait_task_completion
      [⟨"running", ""⟩, ⟨"error", "disk quota exceeded"⟩, ⟨"error", "stale"⟩] 1
      ⟨"error", "disk quota exceeded"⟩
      (by rfl)
      (by
        intro i hi s hs
        match i, hi with
        | 0, _ =>
          rw [List.getElem?_cons_zero, Option.some.injEq] at hs; subst hs; decide)).2
      (by decide)

/-- The retry loop makes at most `rem` further attempts. -/
theorem edgeRetryGo_attempts_le (f : Nat → Option VcdError) :
    ∀ rem i e, (edgeRetryGo f rem i e).2.1 ≤ rem := by
  intro rem
  induction rem with
  | zero => intro i e; simp [edgeRetryGo]
  | succ m ih =>
    intro i e
    simp only [edgeRetryGo]
    cases hf : f i with
    | none => simp
    | some e2 => simpa using Nat.succ_le_succ (ih (i + 1) e2)

/-- A concrete environment whose edge-gateway fetch fails on the first two
attempts and succeeds on the third. -/
def envRetryTwice : Env :=
  { envW with
    fetchEdge := fun _ i =>
      if i < 2 then some (VcdError.other "error retrieving edge gateway") else none }

/-- A concrete environment whose edge-gateway fetch fails on the first
attempt only. -/
def envRetryOnce : Env :=
  { envW with
    fetchEdge := fun _ i =>
      if i == 0 then some (VcdError.other "error retrieving edge gateway") else none }

/-- A concrete environment whose edge-gateway fetch always fails with an
error that is plainly not the allow-listed transient vCD 9.7 failure. -/
def envForbidden : Env :=
  { envW with
    fetchEdge := fun _ _ => some (VcdError.other "ACCESS_TO_RESOURCE_IS_FORBIDDEN") }

/-- C4 theorem: the wrapped edge-gateway read that fails on the first two
attempts and succeeds on the third returns the successful result after
exactly 3 attempts with a 200ms sleep before each retry; in all cases at
most 4 attempts are made; and when all four attempts fail, the last
observed error is returned after 4 attempts and three 200ms sleeps. -/
theorem c4_edge_gateway_retry :
    (∀ env href e0 e1, href ≠ "" →
      env.fetchEdge href 0 = some e0 → env.fetchEdge href 1 = some e1 →
      env.fetchEdge href 2 = none →
      Vdc.GetEdgeGatewayByHref env href = ((some ⟨href⟩, none), 3, [200, 200])) ∧
    (∀ env href, (Vdc.GetEdgeGatewayByHref env href).2.1 ≤ 4) ∧
    (∀ env href e0 e1 e2 e3, href ≠ "" →
      env.fetchEdge href 0 = some e0 → env.fetchEdge href 1 = some e1 →
      env.fetchEdge href 2 = some e2 → env.fetchEdge href 3 = some e3 →
      Vdc.GetEdgeGatewayByHref env href = ((none, some e3), 4, [200, 200, 200])) := by
  refine ⟨?_, ?_, ?_⟩
  · intro env href e0 e1 h h0 h1 h2
    rw [Vdc.GetEdgeGatewayByHref, if_neg (by simp [h]), h0]
    simp [edgeRetryGo, h1, h2]
  · intro env href
    rw [Vdc.GetEdgeGatewayByHref]
    split
    · simp
    · split
      · simp
      · rename_i e heq
        split
        · rename_i n sleeps hloop
          have := edgeRetryGo_attempts_le (env.fetchEdge href) 3 1 e
          rw [hloop] at this
          simpa using Nat.succ_le_succ this
        · rename_i e2 n sleeps hloop
          have := edgeRetryGo_attempts_le (env.fetchEdge href) 3 1 e
          rw [hloop] at this
          simpa using Nat.succ_le_succ this
  · intro env href e0 e1 e2 e3 h h0 h1 h2 h3
    rw [Vdc.GetEdgeGatewayByHref, if_neg (by simp [h]), h0]
    simp [edgeRetryGo, h1, h2, h3]

/-- Witness for C4 at a concrete environment: two transient failures then
success yields the entity after exactly 3 attempts and two 200ms sleeps. -/
theorem c4_edge_gateway_retry_witness :
    Vdc.GetEdgeGatewayByHref envRetryTwice "https://vcd/api/edgeGateway/1" =
      ((some ⟨"https://vcd/api/edgeGateway/1"⟩, none), 3, [200, 200]) :=
  c4_edge_gateway_retry.1 envRetryTwice "https://vcd/api/edgeGateway/1"
    (VcdError.other "error retrieving edge gateway")
    (VcdError.other "error retrieving edge gateway")
    (by decide) (by rfl) (by rfl) (by rfl)

/-- C5 counterexample: an operation failing with an error that is not the
allow-listed transient failure ("ACCESS_TO_RESOURCE_IS_FORBIDDEN") is
nevertheless retried by the wrapper: 4 attempts and three 200ms sleeps are
made - not the claimed single attempt with no sleep and no retry - before
the error is returned. -/
theorem c5_non_transient_retried_counterexample :
    (Vdc.GetEdgeGatewayByHref envForbidden "https://vcd/api/edgeGateway/9").2.1 = 4 ∧
    (Vdc.GetEdgeGatewayByHref envForbidden "https://vcd/api/edgeGateway/9").2.2 =
      [200, 200, 200] ∧
    (Vdc.GetEdgeGatewayByHref envForbidden "https://vcd/api/edgeGateway/9").1 =
      (none, some (VcdError.other "ACCESS_TO_RESOURCE_IS_FORBIDDEN")) := by
  refine ⟨rfl, rfl, rfl⟩

/-- C5 amended theorem: the source's retry wrapper performs no error
classification - after a first failure of any error class it always sleeps
and retries, up to 4 total attempts, and when every attempt fails it
returns the last observed error; the allow-list is scoped to the operation
(only the edge-gateway read is wrapped), not to an error class. -/
theorem c5_retry_ignores_error_class :
    (∀ env href e0, href ≠ "" →
      env.fetchEdge href 0 = some e0 → env.fetchEdge href 1 = none →
      Vdc.GetEdgeGatewayByHref env href = ((some ⟨href⟩, none), 2, [200])) ∧
    (∀ env href e0 e1 e2 e3, href ≠ "" →
      env.fetchEdge href 0 = some e0 → env.fetchEdge href 1 = some e1 →
      env.fetchEdge href 2 = some e2 → env.fetchEdge href 3 = some e3 →
      (Vdc.GetEdgeGatewayByHref env href).1.2 = some e3 ∧
      (Vdc.GetEdgeGatewayByHref env href).2.1 = 4) := by
  constructor
  · intro env href e0 h h0 h1
    rw [Vdc.GetEdgeGatewayByHref, if_neg (by simp [h]), h0]
    simp [edgeRetryGo, h1]
  · intro env href e0 e1 e2 e3 h h0 h1 h2 h3
    rw [Vdc.GetEdgeGatewayByHref, if_neg (by simp [h]), h0]
    constructor <;> simp [edgeRetryGo, h1, h2, h3]

/-- Witness for C5's amended theorem at a concrete environment: a single
failure of an unclassified error is retried and the second attempt's
success is returned after 2 attempts and one sleep. -/
theorem c5_retry_ignores_error_class_witness :
    Vdc.GetEdgeGatewayByHref envRetryOnce "https://vcd/api/edgeGateway/1" =
      ((some ⟨"https://vcd/api/edgeGateway/1"⟩, none), 2, [200]) :=
  c5_retry_ignores_error_class.1 envRetryOnce "https://vcd/api/edgeGateway/1"
    (VcdError.other "error retrieving edge gateway")
    (by decide) (by rfl) (by rfl)

/-- A concrete OpenAPI environment mirroring the spec's example: both
registered endpoints require minimum version "33.0", the connected server
reports "36.0", and every transport call succeeds. -/
def apiEnvW : OpenApiEnv where
  minApiVersions := fun ep =>
    if ep == openApiPathVersion1_0_0 ++ openApiEndpointVdcComputePolicies then some "33.0"
    else if ep == openApiPathVersion1_0_0 ++ openApiEndpointVdcCapabilities then some "33.0"
    else none
  serverVersion := "36.0"
  buildEndpoint := fun s => Except.ok s
  getItem := fun _ _ => none
  getAllItems := fun _ _ => none
  postItem := fun _ _ => none
  putItem := fun _ _ => none
  deleteItem := fun _ _ => none

/-- C3 theorem: every versioned OpenAPI operation consults the
endpoint-compatibility check first - when the check fails the operation
returns that error having issued no transport call - and when the check
succeeds, every transport call the operation issues carries the negotiated
minimum version the check returned, which is the registry's minimum for
the endpoint (not the server's own version). -/
theorem c3_versioned_operations_negotiate_first :
    (∀ env id e, checkOpenApiEndpointCompatibility env
        (openApiPathVersion1_0_0 ++ openApiEndpointVdcComputePolicies) = Except.error e →
      getVdcComputePolicyById env id = ((none, some e), []) ∧
      getAllVdcComputePolicies env = ((none, some e), []) ∧
      createVdcComputePolicy env = ((none, some e), []) ∧
      updateVdcComputePolicy env id = ((none, some e), []) ∧
      deleteVdcComputePolicy env id = (some e, [])) ∧
    (∀ env vdc e, checkOpenApiEndpointCompatibility env
        (openApiPathVersion1_0_0 ++ openApiEndpointVdcCapabilities) = Except.error e →
      vdc.id ≠ "" → Vdc.GetCapabilities env vdc = ((none, some e), [])) ∧
    (∀ env id v, checkOpenApiEndpointCompatibility env
        (openApiPathVersion1_0_0 ++ openApiEndpointVdcComputePolicies) = Except.ok v →
      (∀ c ∈ (getVdcComputePolicyById env id).2, c.version = v) ∧
      (∀ c ∈ (getAllVdcComputePolicies env).2, c.version = v) ∧
      (∀ c ∈ (createVdcComputePolicy env).2, c.version = v) ∧
      (∀ c ∈ (updateVdcComputePolicy env id).2, c.version = v) ∧
      (∀ c ∈ (deleteVdcComputePolicy env id).2, c.version = v)) ∧
    (∀ env vdc v, checkOpenApiEndpointCompatibility env
        (openApiPathVersion1_0_0 ++ openApiEndpointVdcCapabilities) = Except.ok v →
      ∀ c ∈ (Vdc.GetCapabilities env vdc).2, c.version = v) ∧
    (∀ env endpoint m, env.minApiVersions endpoint = some m →
      verLt env.serverVersion m = false →
      checkOpenApiEndpointCompatibility env endpoint = Except.ok m) := by
  refine ⟨?_, ?_, ?_, ?_, ?_⟩
  · intro env id e hc
    refine ⟨?_, ?_, ?_, ?_, ?_⟩ <;>
      simp [getVdcComputePolicyById, getAllVdcComputePolicies, createVdcComputePolicy,
        updateVdcComputePolicy, deleteVdcComputePolicy, hc]
  · intro env vdc e hc hid
    rw [Vdc.GetCapabilities, if_neg (by simp [hid]), hc]
  · intro env id v hc
    refine ⟨?_, ?_, ?_, ?_, ?_⟩ <;>
      · simp only [getVdcComputePolicyById, getAllVdcComputePolicies,
          createVdcComputePolicy, updateVdcComputePolicy, deleteVdcComputePolicy, hc]
        repeat' split
        all_goals simp
  · intro env vdc v hc
    simp only [Vdc.GetCapabilities, hc]
    repeat' split
    all_goals simp
  · intro env endpoint m hm hv
    simp [checkOpenApiEndpointCompatibility, hm, hv]

/-- Witness for C3 at the concrete environment: the check for the compute
policies endpoint succeeds with the registry minimum "33.0", which differs
from the server's own "36.0", and the single transport call the GET-by-id
operation issues carries "33.0". -/
theorem c3_versioned_operations_negotiate_first_witness :
    checkOpenApiEndpointCompatibility apiEnvW
        (openApiPathVersion1_0_0 ++ openApiEndpointVdcComputePolicies) =
      Except.ok "33.0" ∧
    apiEnvW.serverVersion ≠ "33.0" ∧
    (getVdcComputePolicyById apiEnvW "urn:vcloud:vdcComputePolicy:1").2 =
      [⟨ApiOp.getItem, "33.0"⟩] ∧
    ∀ c ∈ (getVdcComputePolicyById apiEnvW "urn:vcloud:vdcComputePolicy:1").2,
      c.version = "33.0" := by
  refine ⟨by rfl, by decide, by decide, ?_⟩
  exact (c3_versioned_operations_negotiate_first.2.2.1 apiEnvW
    "urn:vcloud:vdcComputePolicy:1" "33.0" (by rfl)).1

end GoVcd
